import Mathlib

/-!
Verification development for the CitySnap guide-architect gateway backend.

This file gives a shallow embedding, in Lean 4, of the orchestration and
service logic of the backend:

* the data model of `citysnap/app/schemas/building.py`,
* the image decoding helper `_decode_image` of
  `citysnap/app/routers/buildings.py` (including a faithful model of
  Python's `base64.b64decode(s, validate=True)` on Python 3.11, which
  delegates to `binascii.a2b_base64` in strict mode),
* the element extraction and tag extraction of
  `citysnap/app/services/building_data.py`,
* the post-parse logic of `GeocodingService.reverse_geocode` of
  `citysnap/app/services/geocoding.py`,
* the LLM response normalisation helpers of `citysnap/app/services/llm.py`,
* the full request pipeline of the `building_info` endpoint of
  `citysnap/app/routers/buildings.py`, with the downstream collaborators
  (geocoder, building-data fetcher, LLM facade, image store) represented
  as oracles in an environment record, and the outgoing collaborator calls
  recorded in an explicit trace.

Python floats are modelled as rationals (no claim below depends on binary
floating point rounding), Python byte strings as lists of naturals, and
JSON payloads as an inductive `JValue` (object keys are assumed distinct,
as is the case for every payload considered here).
-/

namespace CitySnap

/-- Coordinates value object (`schemas/building.py`): latitude and longitude.
The range validation (`ge=-90, le=90` etc.) is a boundary concern and is not
re-checked by the orchestration logic modelled here. -/
structure Coordinates where
  lat : Rat
  lon : Rat
deriving DecidableEq, Repr

/-- BuildingId value object: a non-negative OSM identifier.  Modelled as `Int`
with the pydantic `ge=0` constraint carried by the callers. -/
structure BuildingId where
  osm_id : Int
deriving DecidableEq, Repr

/-- Result of a successful geocode or reverse-geocode call. -/
structure CoordinatesAndBuildingId where
  coordinates : Coordinates
  building_id : BuildingId
deriving DecidableEq, Repr

/-- Building profile (`schemas/building.py`, class `BuildingInfo`).  The five
declared pydantic fields, plus `image_path`, which the router attaches
dynamically via `model_copy(update={"image_path": ...})`; pydantic stores the
value on the instance, so at the object level it behaves like a sixth
optional field that starts out absent. -/
structure BuildingInfo where
  name : Option String := none
  year_built : Option Int := none
  architect : Option String := none
  location : Option Coordinates := none
  history : Option String := none
  image_path : Option String := none
deriving DecidableEq, Repr

/-- Request body of `POST /api/v1/building/info`. -/
structure BuildingInfoRequest where
  address : Option String := none
  coordinates : Option Coordinates := none
  image_base64 : Option String := none
deriving DecidableEq, Repr

/-- Response body: the profile plus the ordered provenance list. -/
structure BuildingInfoResponse where
  building : BuildingInfo
  source : List String
deriving DecidableEq, Repr

/-- Structured parse result of one LLM call (`llm.py`, `LLMQueryResult`). -/
structure LLMQueryResult where
  year_built : Option Int
  architect : Option String
  history : Option String
  sources : List String
deriving DecidableEq, Repr

/-- An HTTP error response produced by the endpoint: status code and detail
text (FastAPI `HTTPException`, or the generic 500 produced when an uncaught
exception escapes the handler). -/
structure HttpError where
  status : Nat
  detail : String
deriving DecidableEq, Repr

/-! ### Python string helpers -/

/-- Whitespace characters stripped by Python's `str.strip()` (the ASCII ones;
no claim involves exotic Unicode spaces). -/
def pyIsSpace (c : Char) : Bool :=
  c = ' ' ∨ c = '\t' ∨ c = '\n' ∨ c = '\r' ∨ c = '\x0b' ∨ c = '\x0c'

/-- Python `str.strip()`: drop leading and trailing whitespace. -/
def pyStrip (s : String) : String :=
  ⟨(s.data.dropWhile pyIsSpace).reverse.dropWhile pyIsSpace |>.reverse⟩

/-- Python `str.lower()` restricted to the character ranges that actually
occur in the strings handled here: ASCII letters and the Cyrillic block
(А–Я and Ё). -/
def pyLowerChar (c : Char) : Char :=
  if 'A' ≤ c ∧ c ≤ 'Z' then Char.ofNat (c.toNat + 32)
  else if 'А' ≤ c ∧ c ≤ 'Я' then Char.ofNat (c.toNat + 32)
  else if c = 'Ё' then 'ё'
  else c

/-- Python `str.lower()` on a whole string. -/
def pyLower (s : String) : String :=
  ⟨s.data.map pyLowerChar⟩

/-- Whether `needle` occurs as a contiguous subsequence of `hay`
(Python's `needle in hay`). -/
def listContainsSeq (hay needle : List Char) : Bool :=
  match hay with
  | [] => needle.isEmpty
  | _ :: rest => needle.isPrefixOf hay || listContainsSeq rest needle

/-- Substring test on strings (Python's `in` on `str`). -/
def strContainsSeq (hay needle : String) : Bool :=
  listContainsSeq hay.data needle.data

/-- Python `str.partition(sep)` for a one-character separator: the part
before the first occurrence, and the part after it (empty when the
separator does not occur). -/
def pyPartitionAux (sep : Char) : List Char → List Char × List Char
  | [] => ([], [])
  | c :: rest =>
    if c = sep then ([], rest)
    else
      let (pre, post) := pyPartitionAux sep rest
      (c :: pre, post)

/-- Python `str.partition(sep)` restricted to the two components the source
uses (`header, _, encoded = encoded.partition(",")`). -/
def pyPartition (s : String) (sep : Char) : String × String :=
  let (pre, post) := pyPartitionAux sep s.data
  (⟨pre⟩, ⟨post⟩)

/-- Python `str.split(sep)` for a one-character separator. -/
def pySplitAux (sep : Char) : List Char → List Char → List String
  | [], acc => [⟨acc.reverse⟩]
  | c :: rest, acc =>
    if c = sep then ⟨acc.reverse⟩ :: pySplitAux sep rest []
    else pySplitAux sep rest (c :: acc)

/-- Python `str.split(sep)`: always returns at least one element. -/
def pySplit (s : String) (sep : Char) : List String :=
  pySplitAux sep s.data []

/-! ### Strict base64 decoding

`base64.b64decode(s, validate=True)` on Python 3.11 first encodes the text
as ASCII (failing on non-ASCII characters) and then calls
`binascii.a2b_base64(s, strict_mode=True)`.  Strict mode rejects
non-alphabet characters, leading padding, discontinuous padding and excess
data after a closing pad sequence, and requires the data-character count to
be compatible with the padding.  The state machine below mirrors the loop
of CPython's `binascii_a2b_base64_impl`. -/

/-- Value of a base64 alphabet character, `none` for every other character
(including `=` and non-ASCII characters). -/
def b64CharVal (c : Char) : Option Nat :=
  if 'A' ≤ c ∧ c ≤ 'Z' then some (c.toNat - 65)
  else if 'a' ≤ c ∧ c ≤ 'z' then some (c.toNat - 71)
  else if '0' ≤ c ∧ c ≤ '9' then some (c.toNat + 4)
  else if c = '+' then some 62
  else if c = '/' then some 63
  else none

/-- Core loop of `binascii.a2b_base64(·, strict_mode=True)`.
State: remaining input, position inside the current quad (0–3), the bits
left over from the previous character, the number of pads seen in the
current closing sequence, whether a pad has been seen at all, and the
output bytes accumulated in reverse order.  Returns `none` on any strict
mode error. -/
def a2bBase64Loop : List Char → Nat → Nat → Nat → Bool → List Nat → Option (List Nat)
  | [], quadPos, _, _, _, acc =>
    if quadPos = 0 then some acc.reverse else none
  | c :: rest, quadPos, leftChar, pads, padStarted, acc =>
    if c = '=' then
      if 2 ≤ quadPos ∧ 4 ≤ quadPos + (pads + 1) then
        -- a full pad sequence ends the stream; anything after it is excess
        if rest.isEmpty then some acc.reverse else none
      else if 2 ≤ quadPos then
        a2bBase64Loop rest quadPos leftChar (pads + 1) true acc
      else
        a2bBase64Loop rest quadPos leftChar pads true acc
    else
      match b64CharVal c with
      | none => none
      | some v =>
        if padStarted then none  -- discontinuous padding
        else
          match quadPos with
          | 0 => a2bBase64Loop rest 1 v 0 false acc
          | 1 => a2bBase64Loop rest 2 (v % 16) 0 false ((leftChar * 4 + v / 16) :: acc)
          | 2 => a2bBase64Loop rest 3 (v % 4) 0 false ((leftChar * 16 + v / 4) :: acc)
          | _ => a2bBase64Loop rest 0 0 0 false ((leftChar * 64 + v) :: acc)

/-- `base64.b64decode(s, validate=True)`: `none` models the
`binascii.Error` / `ValueError` raised on invalid input. -/
def b64decodeStrict (s : String) : Option (List Nat) :=
  match s.data with
  | [] => some []
  | c :: _ =>
    if c = '=' then none  -- leading padding not allowed
    else a2bBase64Loop s.data 0 0 0 false []

/-! ### Image decoding (`routers/buildings.py`, `_decode_image`) -/

/-- MIME-type to file-extension allow-list of the router. -/
def MIME_EXTENSION_MAP : List (String × String) :=
  [("image/jpeg", "jpg"), ("image/png", "png"), ("image/webp", "webp")]

/-- Lookup in a small string association list (`dict.get`). -/
def assocLookup : List (String × String) → String → Option String
  | [], _ => none
  | (k, v) :: rest, key => if k = key then some v else assocLookup rest key

/-- Default extension used when no MIME hint is available. -/
def DEFAULT_IMAGE_EXTENSION : String := "jpg"

/-- `_decode_image`: strip the payload, parse an optional
`data:<mime>;base64,` prefix into an extension hint, then strictly decode
the remaining base64 text.  `none` models the `ValueError` raised on a
missing payload after the prefix or on invalid base64 data. -/
def _decode_image (image_base64 : String) : Option (List Nat × String) :=
  let encoded := pyStrip image_base64
  if "data:".data.isPrefixOf encoded.data then
    let (header, rest) := pyPartition encoded ','
    if rest = "" then none
    else
      let mime := (pySplit ((pySplit header ';').headD "") ':').getLastD ""
      let extension := (assocLookup MIME_EXTENSION_MAP mime).getD DEFAULT_IMAGE_EXTENSION
      (b64decodeStrict rest).map (·, extension)
  else
    (b64decodeStrict encoded).map (·, DEFAULT_IMAGE_EXTENSION)

/-! ### JSON values and Python coercions -/

/-- Parsed JSON values as produced by `response.json()` / `json.loads`.
Python distinguishes `bool`, `int` and `float`; object keys are assumed
distinct. -/
inductive JValue where
  | null
  | bool (b : Bool)
  | int (n : Int)
  | num (q : Rat)
  | str (s : String)
  | arr (xs : List JValue)
  | obj (kvs : List (String × JValue))
deriving Repr

/-- Python `x == "<literal>"` for a value drawn from a parsed payload:
true exactly when the value is that string. -/
def isStrVal (v : Option JValue) (s : String) : Bool :=
  match v with
  | some (.str t) => t = s
  | _ => false

/-- Key lookup in a JSON object (`dict.get(key)` on the parsed payload). -/
def jlookup : List (String × JValue) → String → Option JValue
  | [], _ => none
  | (k, v) :: rest, key => if k = key then some v else jlookup rest key

/-- Truncation toward zero, as performed by Python's `int()` on a float. -/
def ratTrunc (q : Rat) : Int :=
  if q < 0 then -(Rat.floor (-q)) else Rat.floor q

/-- ASCII digit test (Python's `[0-9]` character class). -/
def isAsciiDigit (c : Char) : Bool :=
  '0' ≤ c ∧ c ≤ '9'

/-- Numeric value of a list of ASCII digits. -/
def digitsToNat (ds : List Char) : Nat :=
  ds.foldl (fun a c => a * 10 + (c.toNat - 48)) 0

/-- Parse a non-empty run of ASCII digits, rejecting anything else. -/
def parseDigits (cs : List Char) : Option Nat :=
  if cs ≠ [] ∧ cs.all isAsciiDigit then some (digitsToNat cs) else none

/-- Python `int(s)` on a string: optional surrounding whitespace, optional
sign, decimal digits.  (Digit-group underscores and non-ASCII digits do not
occur in the payloads considered here.) -/
def parseIntPy (s : String) : Option Int :=
  match (pyStrip s).data with
  | '-' :: rest => (parseDigits rest).map fun n => -(Int.ofNat n)
  | '+' :: rest => (parseDigits rest).map Int.ofNat
  | rest => (parseDigits rest).map Int.ofNat

/-- Python `float(s)` on a string: optional sign and a plain decimal form
(`12`, `12.`, `12.5`, `.5`).  Exponent and infinity forms do not occur in
the payloads considered here. -/
def parseFloatPy (s : String) : Option Rat :=
  let core : List Char → Option Rat := fun cs =>
    let intPart := cs.takeWhile isAsciiDigit
    let rest := cs.dropWhile isAsciiDigit
    match rest with
    | [] => if intPart ≠ [] then some (mkRat (digitsToNat intPart) 1) else none
    | '.' :: fracPart =>
      if fracPart.all isAsciiDigit ∧ (intPart ≠ [] ∨ fracPart ≠ []) then
        some (mkRat (digitsToNat intPart * 10 ^ fracPart.length + digitsToNat fracPart)
          (10 ^ fracPart.length))
      else none
    | _ => none
  match (pyStrip s).data with
  | '-' :: rest => (core rest).map Neg.neg
  | '+' :: rest => core rest
  | rest => core rest

/-- Python `int(x)` on a parsed JSON value (`TypeError`/`ValueError` is
`none`).  Note `bool` is an `int` subclass in Python. -/
def pyInt : JValue → Option Int
  | .int n => some n
  | .bool b => some (if b then 1 else 0)
  | .num q => some (ratTrunc q)
  | .str s => parseIntPy s
  | _ => none

/-- Python `float(x)` on a parsed JSON value (`TypeError`/`ValueError` is
`none`). -/
def pyFloat : JValue → Option Rat
  | .int n => some (n : Rat)
  | .bool b => some (if b then 1 else 0)
  | .num q => some q
  | .str s => parseFloatPy s
  | _ => none

/-! ### LLM year normalisation (`services/llm.py`, `_normalize_year`) -/

/-- One attempt of the pattern `1[0-9]{3}|20[0-9]{2}` anchored at the head
of the character list: the first alternative is tried first, exactly as
Python's `re` tries alternatives left to right at each position. -/
def yearMatchAt : List Char → Option Nat
  | a :: b :: c :: d :: _ =>
    if a = '1' ∧ isAsciiDigit b ∧ isAsciiDigit c ∧ isAsciiDigit d then
      some (digitsToNat [a, b, c, d])
    else if a = '2' ∧ b = '0' ∧ isAsciiDigit c ∧ isAsciiDigit d then
      some (digitsToNat [a, b, c, d])
    else none
  | _ => none

/-- `re.search(r"(1[0-9]{3}|20[0-9]{2})", s)`: scan positions left to
right, returning the first match. -/
def yearSearch : List Char → Option Nat
  | [] => none
  | l@(_ :: rest) =>
    match yearMatchAt l with
    | some y => some y
    | none => yearSearch rest

/-- `_normalize_year`: accept ints/floats as integers; accept a string only
via the four-digit year pattern, after rejecting blank strings and strings
containing an "unknown" sentinel.  (`int(match.group(0))` on four digits
cannot fail, so the defensive `except ValueError` branch is dead.) -/
def _normalize_year (value : JValue) : Option Int :=
  match value with
  | .null => none
  | .int n => some n
  | .bool b => some (if b then 1 else 0)
  | .num q => some (ratTrunc q)
  | .str s =>
    let lowered := pyLower (pyStrip s)
    if lowered = "" ∨ strContainsSeq lowered "неизвестно" ∨ strContainsSeq lowered "unknown" then
      none
    else
      match yearSearch lowered.data with
      | some y => some (Int.ofNat y)
      | none => none
  | _ => none

/-! ### Building-data service (`services/building_data.py`) -/

/-- Failure modes of `BuildingDataService.fetch`.  All but
`attributeError` are raised as `OpenStreetMapServiceError`;
`attributeError` models the uncaught `AttributeError` hit when a non-dict
element reaches `.get` in the match condition. -/
inductive FetchError where
  | rejected (status : Option Nat)
  | transport
  | invalidJson
  | unexpectedPayload
  | notFound
  | attributeError
deriving DecidableEq, Repr

/-- Outcome of one upstream HTTP exchange, as seen after
`client.get`/`raise_for_status`/`response.json()`. -/
inductive UpstreamResp where
  | transportErr
  | badStatus (code : Nat)
  | invalidJson
  | body (j : JValue)

/-- Python `str(x)` for the scalar JSON values; containers (whose `str`
starts with a bracket and therefore can never equal the `str` of an
integer id) yield `none`. -/
def strOfScalar : Option JValue → Option String
  | none => some "None"
  | some .null => some "None"
  | some (.bool b) => some (if b then "True" else "False")
  | some (.int n) => some (toString n)
  | some (.str s) => some s
  | _ => none

/-- The id comparison `str(item.get("id")) == str(element_id)` of
`_extract_building`.  `str(element_id)` is the decimal rendering of an
integer, which no float, container or `None` rendering can equal, so those
cases compare unequal. -/
def idMatches (idVal : Option JValue) (eid : Int) : Bool :=
  match strOfScalar idVal with
  | some s => s = toString eid
  | none => false

/-- The element-matching loop of `_extract_building`.  The condition is
kept with Python's operator precedence: `(isinstance(item, dict) and
item.get("type") == "way") or (item.get("type") == "node" and
str(item.get("id")) == str(element_id))`; a non-dict element falls into
the second clause and raises `AttributeError` on `.get`. -/
def extractLoop (eid : Int) : List JValue → Except FetchError (List (String × JValue))
  | [] => .error .notFound
  | item :: rest =>
    match item with
    | .obj kvs =>
      if isStrVal (jlookup kvs "type") "way" then .ok kvs
      else if isStrVal (jlookup kvs "type") "node" ∧ idMatches (jlookup kvs "id") eid then
        .ok kvs
      else extractLoop eid rest
    | _ => .error .attributeError

/-- `BuildingDataService._extract_building`: validate the payload shape and
scan the `elements` array. -/
def _extract_building (payload : JValue) (element_id : Int) :
    Except FetchError (List (String × JValue)) :=
  match payload with
  | .obj kvs =>
    match jlookup kvs "elements" with
    | some (.arr elements) => extractLoop element_id elements
    | _ => .error .unexpectedPayload
  | _ => .error .unexpectedPayload

/-- `_extract_name`: a non-blank string `name` tag, trimmed. -/
def _extract_name (tags : List (String × JValue)) : Option String :=
  match jlookup tags "name" with
  | some (.str s) => if pyStrip s ≠ "" then some (pyStrip s) else none
  | _ => none

/-- First run of digits in a string, truncated to four characters
(`re.search(r"(\d{1,4})", s)`). -/
def firstDigits : List Char → Option (List Char)
  | [] => none
  | c :: rest =>
    if isAsciiDigit c then some (c :: (rest.takeWhile isAsciiDigit).take 3)
    else firstDigits rest

/-- `_extract_year`: first candidate tag (in priority order) containing a
digit run, parsed as an integer. -/
def _extract_year (tags : List (String × JValue)) : Option Int :=
  [jlookup tags "start_date", jlookup tags "construction", jlookup tags "building:date"].findSome?
    fun candidate =>
      match candidate with
      | some (.str s) => (firstDigits s.data).map fun ds => Int.ofNat (digitsToNat ds)
      | _ => none

/-- `_extract_architect`: a non-blank string `architect` tag, trimmed. -/
def _extract_architect (tags : List (String × JValue)) : Option String :=
  match jlookup tags "architect" with
  | some (.str s) => if pyStrip s ≠ "" then some (pyStrip s) else none
  | _ => none

/-- `_extract_history`: first non-blank string among the `description`,
`note`, `wikipedia:synopsis` tags, trimmed. -/
def _extract_history (tags : List (String × JValue)) : Option String :=
  [jlookup tags "description", jlookup tags "note", jlookup tags "wikipedia:synopsis"].findSome?
    fun candidate =>
      match candidate with
      | some (.str s) => if pyStrip s ≠ "" then some (pyStrip s) else none
      | _ => none

/-- `BuildingDataService.fetch`, as a function of the requested id and the
upstream exchange outcome.  `if not building_id:` short-circuits to `None`
exactly on a zero id (OSM ids are non-negative).  The `tags` value defaults
to an empty dict when missing; a present non-dict `tags` value would crash
the subsequent `.get` calls with `AttributeError`. -/
def BuildingDataService.fetch (building_id : Int) (resp : UpstreamResp) :
    Except FetchError (Option BuildingInfo) :=
  if building_id = 0 then .ok none
  else
    match resp with
    | .transportErr => .error .transport
    | .badStatus s => .error (.rejected (some s))
    | .invalidJson => .error .invalidJson
    | .body payload =>
      match _extract_building payload building_id with
      | .error e => .error e
      | .ok building =>
        match (jlookup building "tags").getD (.obj []) with
        | .obj tags =>
          .ok (some
            { name := _extract_name tags
              year_built := _extract_year tags
              architect := _extract_architect tags
              history := _extract_history tags })
        | _ => .error .attributeError

/-! ### Reverse geocoding (`services/geocoding.py`, `reverse_geocode`) -/

/-- Post-exchange logic of `GeocodingService.reverse_geocode`: errors carry
the `OpenStreetMapServiceError` message.  A missing `osm_id` key and a JSON
`null` value are indistinguishable to `payload.get("osm_id")`, hence both
yield "not a building".  The `lat`/`lon` keys default to the queried
coordinates when missing. -/
def GeocodingService.reverse_geocode (coordinates : Coordinates) (resp : UpstreamResp) :
    Except String (Option CoordinatesAndBuildingId) :=
  match resp with
  | .transportErr => .error "Failed to call OpenStreetMap Nominatim API"
  | .badStatus _ => .error "OpenStreetMap Nominatim rejected the request"
  | .invalidJson => .error "OpenStreetMap Nominatim returned invalid JSON"
  | .body payload =>
    match payload with
    | .obj kvs =>
      let osm_id_raw : Option JValue :=
        match jlookup kvs "osm_id" with
        | some .null => none
        | v => v
      let osm_type := jlookup kvs "osm_type"
      if osm_id_raw.isNone ∨
          ¬(isStrVal osm_type "way" ∨ isStrVal osm_type "W") then
        .ok none
      else
        match osm_id_raw.bind pyInt with
        | none => .error "OpenStreetMap Nominatim returned malformed coordinates"
        | some osm_id =>
          let latitude_raw := (jlookup kvs "lat").getD (.num coordinates.lat)
          let longitude_raw := (jlookup kvs "lon").getD (.num coordinates.lon)
          match pyFloat latitude_raw, pyFloat longitude_raw with
          | some la, some lo =>
            .ok (some ⟨⟨la, lo⟩, ⟨osm_id⟩⟩)
          | _, _ => .error "OpenStreetMap Nominatim returned malformed coordinates"
    | _ => .ok none

/-! ### Float formatting helpers used by the router -/

/-- Round the fraction `num / den` (with `den > 0`) to the nearest
integer, ties to even — the rounding used by Python's fixed-point float
formatting.  Stated on a numerator/denominator pair. -/
def roundHalfEvenFrac (num den : Int) : Int :=
  let f := Int.fdiv num den
  let r2 := 2 * (num - f * den)
  if r2 < den then f
  else if den < r2 then f + 1
  else if f % 2 = 0 then f else f + 1

/-- Zero-pad a natural to `width` digits. -/
def padNat (width : Nat) (n : Nat) : String :=
  let s := toString n
  ⟨List.replicate (width - s.length) '0'⟩ ++ s

/-- Python `f"{x:.3f}"`: three fractional digits, ties to even. -/
def fmt3 (q : Rat) : String :=
  let scaled := roundHalfEvenFrac (q.num * 1000) (q.den : Int)
  let sign := if q < 0 then "-" else ""
  let a := scaled.natAbs
  sign ++ toString (a / 1000) ++ "." ++ padNat 3 (a % 1000)

/-- Python `f"{x}"` on a float whose value has a terminating decimal
expansion (every decimal literal and every Nominatim coordinate does):
the exact expansion, with a forced `.0` for integral values.  The reduced
denominator of such a value divides a power of ten. -/
def ratDecimalRepr (q : Rat) : String :=
  match (List.range 31).find? (fun k => (10 : Nat) ^ k % q.den = 0) with
  | some k =>
    let a := q.num.natAbs * (10 ^ k / q.den)
    let sign := if q < 0 then "-" else ""
    if k = 0 then sign ++ toString a ++ ".0"
    else sign ++ toString (a / 10 ^ k) ++ "." ++ padNat k (a % 10 ^ k)
  | none => toString q

/-! ### The `building_info` endpoint (`routers/buildings.py`)

The downstream collaborators are oracles in an `Env`: each oracle value
describes what the corresponding awaited call would produce for given
arguments.  Every outgoing call is recorded in a trace so that "collaborator
X was never invoked" is expressible. -/

/-- Outcome of a geocode / reverse-geocode call as seen by the router:
an `OpenStreetMapServiceError` (with its message), no result, or a result. -/
inductive GeoOutcome where
  | err (msg : String)
  | notFound
  | found (r : CoordinatesAndBuildingId)

/-- Outcome of a building-data fetch as seen by the router. -/
inductive FetchOutcome where
  | err (msg : String)
  | ok (b : Option BuildingInfo)

/-- Outcome of an LLM facade query as seen by the router: an
`LLMProviderError`, or a parse result (possibly empty). -/
inductive LlmOutcome where
  | err (msg : String)
  | ok (r : Option LLMQueryResult)

/-- The collaborator environment of one request: geocoder, building-data
service, optional LLM facade (`try_get_llm_facade` yields `None` when no
provider is configured), and the timestamp the image store would embed in
a generated filename. -/
structure Env where
  geocode : String → GeoOutcome
  reverse : Coordinates → GeoOutcome
  fetch : Int → FetchOutcome
  llm : Option (String → String → LlmOutcome)
  timestamp : String

/-- One outgoing collaborator interaction of the router. -/
inductive Call where
  | geocodeSearch (address : String)
  | reverseLookup (c : Coordinates)
  | fetchData (osm_id : Int)
  | storeImage (bytes : List Nat) (extension : String) (filename : String)
  | llmQuery (addressHint photoContext : String)
deriving DecidableEq, Repr

/-- Python truthiness of an optional string (`if payload.address:`):
false for both `None` and the empty string. -/
def optStrTruthy : Option String → Bool
  | some s => s ≠ ""
  | none => false

/-- Filename built by `_persist_image`: `osm-<id>` and/or the
`<lat:.3f>-<lon:.3f>` fragment joined by underscores, then the timestamp
and the extension. -/
def persistFilename (timestamp extension : String) (building_id : Option Int)
    (coordinates : Option Coordinates) : String :=
  let parts : List String :=
    (match building_id with
     | some i => ["osm-" ++ toString i]
     | none => []) ++
    (match coordinates with
     | some c => [fmt3 c.lat ++ "-" ++ fmt3 c.lon]
     | none => [])
  let parts := if parts.isEmpty then ["osm"] else parts
  String.intercalate "_" parts ++ "_" ++ timestamp ++ "." ++ extension

/-- `_build_address_hint`: coordinate-derived hint when the profile has a
location, a fixed placeholder otherwise. -/
def _build_address_hint (building : BuildingInfo) : String :=
  match building.location with
  | some c => "координаты lat=" ++ ratDecimalRepr c.lat ++ ", lon=" ++ ratDecimalRepr c.lon
  | none => "не указан"

/-- The `updates` block of `_enrich_building_info_by_lmm`: merge an LLM
result into the profile, filling only the still-unset fields. -/
def mergeLlmResult (building : BuildingInfo) (llm_result : LLMQueryResult) : BuildingInfo :=
  let b := building
  let b := if building.year_built = none ∧ llm_result.year_built ≠ none then
             { b with year_built := llm_result.year_built } else b
  let b := if building.architect = none ∧ llm_result.architect ≠ none then
             { b with architect := llm_result.architect } else b
  let b := if building.history = none ∧ llm_result.history ≠ none then
             { b with history := llm_result.history } else b
  b

/-- The try/except body of `_enrich_building_info_by_lmm` after the facade
call: an `LLMProviderError` is swallowed and the profile returned as is, an
empty parse result leaves the profile as is, a non-empty result is merged. -/
def enrichOutcome (building : BuildingInfo) : LlmOutcome → Option BuildingInfo
  | .err _ => some building
  | .ok none => some building
  | .ok (some llm_result) => some (mergeLlmResult building llm_result)

/-- `_enrich_building_info_by_lmm`: returns `None` (without any call) when
no facade is configured; otherwise queries the facade and handles the
outcome via `enrichOutcome`. -/
def _enrich_building_info_by_lmm (llm_facade : Option (String → String → LlmOutcome))
    (address : Option String) (building : BuildingInfo) (has_photo : Bool) :
    Option BuildingInfo × List Call :=
  match llm_facade with
  | none => (none, [])
  | some facade =>
    let photo_context :=
      if has_photo then "Пользователь предоставил фотографию здания"
      else "фотография отсутствует"
    let address_hint :=
      match address with
      | some a => if a ≠ "" then a else _build_address_hint building
      | none => _build_address_hint building
    (enrichOutcome building (facade address_hint photo_context),
     [.llmQuery address_hint photo_context])

/-- Address-search block of the endpoint (lines 78–92): attempted only for
a truthy address; an `OpenStreetMapServiceError` becomes a 502. -/
def searchStep (env : Env) (address : Option String) :
    Except HttpError (Option (CoordinatesAndBuildingId × String)) × List Call :=
  match address with
  | some a =>
    if a ≠ "" then
      match env.geocode a with
      | .err m =>
        (.error ⟨502, "OpenStreetMap Nominatim search failed: " ++ m⟩, [.geocodeSearch a])
      | .notFound => (.ok none, [.geocodeSearch a])
      | .found r => (.ok (some (r, "OpenStreetMap Nominatim (search)")), [.geocodeSearch a])
    else (.ok none, [])
  | none => (.ok none, [])

/-- Reverse-geocode block of the endpoint (lines 94–114), reached only
when the search block produced nothing. -/
def reverseStep (env : Env) (coordinates : Option Coordinates) :
    Except HttpError (Option (CoordinatesAndBuildingId × String)) × List Call :=
  match coordinates with
  | some c =>
    match env.reverse c with
    | .err m =>
      (.error ⟨502, "OpenStreetMap Nominatim reverse lookup failed: " ++ m⟩, [.reverseLookup c])
    | .notFound => (.ok none, [.reverseLookup c])
    | .found r => (.ok (some (r, "OpenStreetMap Nominatim (reverse)")), [.reverseLookup c])
  | none => (.ok none, [])

/-- LLM block of the endpoint (lines 157–166): enrichment is attempted
only when a tracked field is still unset.  The router compares the
helper's return value against the current profile with `!=`; when no
facade is configured the helper returns `None`, which is unequal to any
profile, so the profile variable becomes `None` and the `"LLM Generated"`
label is appended. -/
def llmStep (env : Env) (address : Option String) (building : BuildingInfo)
    (has_photo : Bool) (sources : List String) :
    Option BuildingInfo × List String × List Call :=
  if building.year_built = none ∨ building.architect = none ∨ building.history = none then
    let res := _enrich_building_info_by_lmm env.llm address building has_photo
    if res.1 ≠ some building then (res.1, sources ++ ["LLM Generated"], res.2)
    else (some building, sources, res.2)
  else (some building, sources, [])

/-- Endpoint tail from the building-data fetch to the response object
(lines 130–177).  A fetched profile is truthy (pydantic models define no
`__bool__`), so `if building:` distinguishes exactly `None`; the geocoded
coordinates are backfilled only into a location-less profile.  After the
LLM block, constructing `BuildingInfoResponse(building=None)` raises a
pydantic validation error that escapes the handler as a plain 500. -/
def restOfPipeline (env : Env) (address : Option String)
    (decoded_image : Option (List Nat × String))
    (gr : CoordinatesAndBuildingId) (geocode_source : String) :
    Except HttpError BuildingInfoResponse × List Call :=
  let coordinates := gr.coordinates
  let osm_building_id := gr.building_id.osm_id
  let sources := [geocode_source]
  match env.fetch osm_building_id with
  | .err m =>
    (.error ⟨502, "OpenStreetMap API failed to provide building data: " ++ m⟩,
     [.fetchData osm_building_id])
  | .ok fetched =>
    let merged : BuildingInfo × List String :=
      match fetched with
      | some b =>
        (if b.location = none then { b with location := some coordinates } else b,
         sources ++ ["OpenStreetMap API"])
      | none => (({ location := some coordinates } : BuildingInfo), sources)
    let withImage : BuildingInfo × List Call :=
      match decoded_image with
      | some (bytes, extension) =>
        let filename := persistFilename env.timestamp extension (some osm_building_id) (some coordinates)
        (({ merged.1 with image_path := some ("/uploads/" ++ filename) } : BuildingInfo),
         [Call.storeImage bytes extension filename])
      | none => (merged.1, ([] : List Call))
    let enriched := llmStep env address withImage.1 decoded_image.isSome merged.2
    let finalSources := if enriched.2.1.isEmpty then ["Gateway Stub"] else enriched.2.1
    match enriched.1 with
    | some b =>
      (.ok ⟨b, finalSources⟩, Call.fetchData osm_building_id :: (withImage.2 ++ enriched.2.2))
    | none =>
      (.error ⟨500, "Internal Server Error"⟩,
       Call.fetchData osm_building_id :: (withImage.2 ++ enriched.2.2))

/-- Image-decoding block of the endpoint (lines 66–76): a truthy
`image_base64` is decoded before any network call; `ValueError` becomes
the error case. -/
def decodeImageStep (image_base64 : Option String) : Except Unit (Option (List Nat × String)) :=
  match image_base64 with
  | some s =>
    if s ≠ "" then
      match _decode_image s with
      | some di => .ok (some di)
      | none => .error ()
    else .ok none
  | none => .ok none

/-- Geocode-resolution section of the endpoint (lines 78–118): the search
path first, the reverse path only when search produced nothing, a 404 when
both produced nothing. -/
def geocodeResolution (env : Env) (payload : BuildingInfoRequest) :
    Except HttpError (CoordinatesAndBuildingId × String) × List Call :=
  let s := searchStep env payload.address
  match s.1 with
  | .error e => (.error e, s.2)
  | .ok (some r) => (.ok r, s.2)
  | .ok none =>
    let rv := reverseStep env payload.coordinates
    match rv.1 with
    | .error e => (.error e, s.2 ++ rv.2)
    | .ok (some r) => (.ok r, s.2 ++ rv.2)
    | .ok none =>
      (.error ⟨404, "OpenStreetMap Nominatim could not resolve the provided location"⟩,
       s.2 ++ rv.2)

/-- The `building_info` endpoint: boundary validation, image decoding
(before any network call), geocode resolution with search preferred over
reverse lookup, a 404 when neither resolves, then the
fetch/merge/persist/enrich tail. -/
def building_info (env : Env) (payload : BuildingInfoRequest) :
    Except HttpError BuildingInfoResponse × List Call :=
  if ¬ optStrTruthy payload.address ∧ payload.coordinates = none then
    (.error ⟨400, "OpenStreetMap gateway requires either an address or coordinates to query OpenStreetMap APIs"⟩, [])
  else
    match decodeImageStep payload.image_base64 with
    | .error _ =>
      (.error ⟨400, "OpenStreetMap gateway cannot decode the provided base64 photo"⟩, [])
    | .ok decoded_image =>
      let g := geocodeResolution env payload
      match g.1 with
      | .error e => (.error e, g.2)
      | .ok (gr, geocode_source) =>
        let rest := restOfPipeline env payload.address decoded_image gr geocode_source
        (rest.1, g.2 ++ rest.2)

/-! ## Helper lemmas about the enrichment step -/

/-- Merging an LLM result never touches the profile's name, location or
image path. -/
theorem mergeLlmResult_preserves (b : BuildingInfo) (r : LLMQueryResult) :
    (mergeLlmResult b r).location = b.location ∧
    (mergeLlmResult b r).image_path = b.image_path := by
  simp only [mergeLlmResult]
  split <;> split <;> split <;> simp

/-- Whatever the facade call produced, a profile coming out of
`enrichOutcome` keeps the incoming location and image path. -/
theorem enrichOutcome_preserves (b : BuildingInfo) (out : LlmOutcome) (b' : BuildingInfo)
    (h : enrichOutcome b out = some b') :
    b'.location = b.location ∧ b'.image_path = b.image_path := by
  cases out with
  | err m =>
    cases Option.some_inj.mp h
    exact ⟨rfl, rfl⟩
  | ok r =>
    cases r with
    | none =>
      cases Option.some_inj.mp h
      exact ⟨rfl, rfl⟩
    | some res =>
      cases Option.some_inj.mp h
      exact mergeLlmResult_preserves b res

/-- A non-`None` profile returned by `_enrich_building_info_by_lmm` keeps
the incoming location and image path. -/
theorem enrich_fst_preserves (llmO : Option (String → String → LlmOutcome))
    (address : Option String) (b : BuildingInfo) (p : Bool) (b' : BuildingInfo)
    (h : (_enrich_building_info_by_lmm llmO address b p).1 = some b') :
    b'.location = b.location ∧ b'.image_path = b.image_path := by
  cases llmO with
  | none => exact Option.noConfusion h
  | some facade =>
    simp only [_enrich_building_info_by_lmm] at h
    exact enrichOutcome_preserves b _ b' h

/-- The enrichment step emits at most an LLM query call. -/
theorem enrich_snd_calls (llmO : Option (String → String → LlmOutcome))
    (address : Option String) (b : BuildingInfo) (p : Bool) :
    ∀ c ∈ (_enrich_building_info_by_lmm llmO address b p).2,
      ∃ a q, c = Call.llmQuery a q := by
  cases llmO with
  | none => intro c hc; exact absurd hc (by simp [_enrich_building_info_by_lmm])
  | some facade =>
    intro c hc
    simp only [_enrich_building_info_by_lmm, List.mem_singleton] at hc
    exact ⟨_, _, hc⟩

/-! ## Helper lemmas about the endpoint tail -/

/-- A profile surviving the LLM block keeps its location and image path. -/
theorem llmStep_fst_preserves (env : Env) (address : Option String) (b : BuildingInfo)
    (p : Bool) (srcs : List String) (b' : BuildingInfo)
    (h : (llmStep env address b p srcs).1 = some b') :
    b'.location = b.location ∧ b'.image_path = b.image_path := by
  simp only [llmStep] at h
  split at h
  · split at h
    · exact enrich_fst_preserves env.llm address b p b' h
    · cases Option.some_inj.mp h
      exact ⟨rfl, rfl⟩
  · cases Option.some_inj.mp h
    exact ⟨rfl, rfl⟩

/-- The LLM block only ever appends the `"LLM Generated"` label to the
provenance list. -/
theorem llmStep_sources (env : Env) (address : Option String) (b : BuildingInfo)
    (p : Bool) (srcs : List String) :
    (llmStep env address b p srcs).2.1 = srcs ∨
    (llmStep env address b p srcs).2.1 = srcs ++ ["LLM Generated"] := by
  simp only [llmStep]
  split
  · split
    · exact Or.inr rfl
    · exact Or.inl rfl
  · exact Or.inl rfl

/-- The LLM block emits at most LLM query calls. -/
theorem llmStep_calls (env : Env) (address : Option String) (b : BuildingInfo)
    (p : Bool) (srcs : List String) :
    ∀ c ∈ (llmStep env address b p srcs).2.2, ∃ a q, c = Call.llmQuery a q := by
  simp only [llmStep]
  split
  · split
    · exact enrich_snd_calls env.llm address b p
    · exact enrich_snd_calls env.llm address b p
  · intro c hc
    exact absurd hc (List.not_mem_nil c)

/-- Applied form of `llmStep_sources`, keyed on a profile equation so the
arguments can be inferred from a hypothesis. -/
theorem llmStep_sources_of (env : Env) (address : Option String) (b : BuildingInfo)
    (p : Bool) (srcs : List String) (b' : Option BuildingInfo)
    (_ : (llmStep env address b p srcs).1 = b') :
    (llmStep env address b p srcs).2.1 = srcs ∨
    (llmStep env address b p srcs).2.1 = srcs ++ ["LLM Generated"] :=
  llmStep_sources env address b p srcs

/-- Every call of the endpoint tail is the building-data fetch, an image
store, or an LLM query — never a geocoding call. -/
theorem restOfPipeline_calls (env : Env) (address : Option String)
    (di : Option (List Nat × String)) (gr : CoordinatesAndBuildingId) (gs : String) :
    ∀ c ∈ (restOfPipeline env address di gr gs).2,
      c = Call.fetchData gr.building_id.osm_id ∨
      (∃ b e f, c = Call.storeImage b e f) ∨ (∃ a q, c = Call.llmQuery a q) := by
  intro c hc
  cases hf : env.fetch gr.building_id.osm_id with
  | err m =>
    simp only [restOfPipeline, hf, List.mem_singleton] at hc
    exact Or.inl hc
  | ok fetched =>
    rcases di with - | ⟨bytes, ext⟩ <;>
      simp only [restOfPipeline, hf] at hc <;>
      split at hc <;>
      simp only [List.mem_cons, List.mem_append, List.mem_singleton, List.nil_append,
        List.not_mem_nil, false_or, or_false] at hc
    · rcases hc with rfl | hc
      · exact Or.inl rfl
      · exact Or.inr (Or.inr (llmStep_calls _ _ _ _ _ c hc))
    · rcases hc with rfl | hc
      · exact Or.inl rfl
      · exact Or.inr (Or.inr (llmStep_calls _ _ _ _ _ c hc))
    · rcases hc with rfl | (rfl | hc)
      · exact Or.inl rfl
      · exact Or.inr (Or.inl ⟨_, _, _, rfl⟩)
      · exact Or.inr (Or.inr (llmStep_calls _ _ _ _ _ c hc))
    · rcases hc with rfl | (rfl | hc)
      · exact Or.inl rfl
      · exact Or.inr (Or.inl ⟨_, _, _, rfl⟩)
      · exact Or.inr (Or.inr (llmStep_calls _ _ _ _ _ c hc))

/-- A successful endpoint tail yields a provenance list headed by the
geocode label, followed only by the building-data and LLM labels. -/
theorem restOfPipeline_ok_sources (env : Env) (address : Option String)
    (di : Option (List Nat × String)) (gr : CoordinatesAndBuildingId) (gs : String)
    (resp : BuildingInfoResponse)
    (h : (restOfPipeline env address di gr gs).1 = .ok resp) :
    ∃ extra, resp.source = gs :: extra ∧
      ∀ x ∈ extra, x = "OpenStreetMap API" ∨ x = "LLM Generated" := by
  cases hf : env.fetch gr.building_id.osm_id with
  | err m =>
    simp only [restOfPipeline, hf] at h
    exact Except.noConfusion h
  | ok fetched =>
    cases fetched with
    | some b =>
      simp only [restOfPipeline, hf] at h
      split at h
      · next b' heq =>
          obtain hs | hs := llmStep_sources_of _ _ _ _ _ _ heq <;>
            rw [hs] at h <;>
            simp only [List.singleton_append, List.cons_append, List.nil_append,
              List.isEmpty_cons, Bool.false_eq_true, if_false] at h <;>
            exact (Except.ok.inj h) ▸ ⟨_, rfl, by decide⟩
      · exact Except.noConfusion h
    | none =>
      simp only [restOfPipeline, hf] at h
      split at h
      · next b' heq =>
          obtain hs | hs := llmStep_sources_of _ _ _ _ _ _ heq <;>
            rw [hs] at h <;>
            simp only [List.singleton_append, List.cons_append, List.nil_append,
              List.isEmpty_cons, Bool.false_eq_true, if_false] at h <;>
            exact (Except.ok.inj h) ▸ ⟨_, rfl, by decide⟩
      · exact Except.noConfusion h

/-- A location present on the fetched profile survives to the response:
the backfill only fills an absent location, the image step only touches
`image_path`, and the LLM block never touches `location`. -/
theorem restOfPipeline_location (env : Env) (address : Option String)
    (di : Option (List Nat × String)) (gr : CoordinatesAndBuildingId) (gs : String)
    (b : BuildingInfo) (l : Coordinates) (resp : BuildingInfoResponse)
    (hf : env.fetch gr.building_id.osm_id = .ok (some b)) (hl : b.location = some l)
    (h : (restOfPipeline env address di gr gs).1 = .ok resp) :
    resp.building.location = some l := by
  rcases di with - | ⟨bytes, ext⟩
  · simp only [restOfPipeline, hf] at h
    rw [if_neg (by simp [hl])] at h
    split at h
    · next b' heq =>
        have hp := llmStep_fst_preserves _ _ _ _ _ _ heq
        have hx := Except.ok.inj h
        subst hx
        simpa [hl] using hp.1
    · exact Except.noConfusion h
  · simp only [restOfPipeline, hf] at h
    rw [if_neg (by simp [hl])] at h
    split at h
    · next b' heq =>
        have hp := llmStep_fst_preserves _ _ _ _ _ _ heq
        have hx := Except.ok.inj h
        subst hx
        simpa [hl] using hp.1
    · exact Except.noConfusion h

/-- When an image was decoded, a successful endpoint tail stores exactly
the decoded bytes under the derived filename and reports that path on the
response profile. -/
theorem restOfPipeline_image (env : Env) (address : Option String)
    (bytes : List Nat) (ext : String) (gr : CoordinatesAndBuildingId) (gs : String)
    (resp : BuildingInfoResponse)
    (h : (restOfPipeline env address (some (bytes, ext)) gr gs).1 = .ok resp) :
    resp.building.image_path =
      some ("/uploads/" ++
        persistFilename env.timestamp ext (some gr.building_id.osm_id) (some gr.coordinates)) ∧
    Call.storeImage bytes ext
        (persistFilename env.timestamp ext (some gr.building_id.osm_id) (some gr.coordinates)) ∈
      (restOfPipeline env address (some (bytes, ext)) gr gs).2 := by
  cases hf : env.fetch gr.building_id.osm_id with
  | err m =>
    simp only [restOfPipeline, hf] at h
    exact Except.noConfusion h
  | ok fetched =>
    simp only [restOfPipeline, hf] at h ⊢
    split at h
    · next b' heq =>
        have hp := llmStep_fst_preserves _ _ _ _ _ _ heq
        have hx := Except.ok.inj h
        subst hx
        refine ⟨by simpa using hp.2, ?_⟩
        split <;> simp
    · exact Except.noConfusion h

/-- A successful endpoint run decomposes into a successful image decode,
a successful geocode resolution and a successful tail, and its trace is
the geocoding calls followed by the tail calls. -/
theorem building_info_ok_inv (env : Env) (p : BuildingInfoRequest) (resp : BuildingInfoResponse)
    (h : (building_info env p).1 = .ok resp) :
    ∃ di gr gs, decodeImageStep p.image_base64 = .ok di ∧
      (geocodeResolution env p).1 = .ok (gr, gs) ∧
      (restOfPipeline env p.address di gr gs).1 = .ok resp ∧
      (building_info env p).2 =
        (geocodeResolution env p).2 ++ (restOfPipeline env p.address di gr gs).2 := by
  simp only [building_info] at h
  split at h
  · exact Except.noConfusion h
  · next hcond =>
      split at h
      · exact Except.noConfusion h
      · next di heqd =>
          split at h
          · exact Except.noConfusion h
          · next gr gs heqg =>
              have hbi : building_info env p =
                  ((restOfPipeline env p.address di gr gs).1,
                   (geocodeResolution env p).2 ++ (restOfPipeline env p.address di gr gs).2) := by
                simp only [building_info]
                rw [if_neg hcond, heqd, heqg]
              exact ⟨di, gr, gs, heqd, heqg, h, congrArg Prod.snd hbi⟩

/-- Geocode resolution for a request with a truthy address that the search
path resolves: the search label, and no reverse call. -/
theorem geocodeResolution_search_found (env : Env) (p : BuildingInfoRequest) (a : String)
    (r : CoordinatesAndBuildingId)
    (ha : p.address = some a) (hne : a ≠ "") (hg : env.geocode a = .found r) :
    geocodeResolution env p =
      (.ok (r, "OpenStreetMap Nominatim (search)"), [Call.geocodeSearch a]) := by
  simp [geocodeResolution, searchStep, ha, hne, hg]

/-- Geocode resolution for a request without an address whose coordinates
the reverse path resolves: the reverse label. -/
theorem geocodeResolution_reverse_found (env : Env) (p : BuildingInfoRequest)
    (c : Coordinates) (r : CoordinatesAndBuildingId)
    (ha : p.address = none) (hc : p.coordinates = some c) (hr : env.reverse c = .found r) :
    geocodeResolution env p =
      (.ok (r, "OpenStreetMap Nominatim (reverse)"), [Call.reverseLookup c]) := by
  simp [geocodeResolution, searchStep, reverseStep, ha, hc, hr]

/-- When the search path (if applicable) and the reverse path (if
applicable) both produce nothing, geocode resolution is the 404 and only
geocoding calls were made. -/
theorem geocodeResolution_both_not_found (env : Env) (p : BuildingInfoRequest)
    (hs : ∀ a, p.address = some a → a ≠ "" → env.geocode a = .notFound)
    (hr : ∀ c, p.coordinates = some c → env.reverse c = .notFound) :
    (geocodeResolution env p).1 =
      .error ⟨404, "OpenStreetMap Nominatim could not resolve the provided location"⟩ ∧
    ∀ c ∈ (geocodeResolution env p).2,
      (∃ a, c = Call.geocodeSearch a) ∨ (∃ co, c = Call.reverseLookup co) := by
  have hsearch : searchStep env p.address = (.ok none, []) ∨
      ∃ a, p.address = some a ∧ searchStep env p.address = (.ok none, [Call.geocodeSearch a]) := by
    rcases hpa : p.address with - | a
    · exact Or.inl (by simp [searchStep])
    · by_cases hae : a = ""
      · subst hae
        exact Or.inl (by simp [searchStep])
      · exact Or.inr ⟨a, rfl, by simp [searchStep, hae, hs a hpa hae]⟩
  have hrev : reverseStep env p.coordinates = (.ok none, []) ∨
      ∃ c, p.coordinates = some c ∧
        reverseStep env p.coordinates = (.ok none, [Call.reverseLookup c]) := by
    rcases hpc : p.coordinates with - | c
    · exact Or.inl (by simp [reverseStep])
    · exact Or.inr ⟨c, rfl, by simp [reverseStep, hr c hpc]⟩
  rcases hsearch with hS | ⟨a, hpa, hS⟩ <;> rcases hrev with hR | ⟨c, hpc, hR⟩
  · refine ⟨by simp [geocodeResolution, hS, hR], ?_⟩
    intro x hx
    simp [geocodeResolution, hS, hR] at hx
  · refine ⟨by simp [geocodeResolution, hS, hR], ?_⟩
    intro x hx
    simp only [geocodeResolution, hS, hR, List.nil_append, List.mem_singleton] at hx
    exact Or.inr ⟨c, hx⟩
  · refine ⟨by simp [geocodeResolution, hS, hR], ?_⟩
    intro x hx
    simp only [geocodeResolution, hS, hR, List.append_nil, List.mem_singleton] at hx
    exact Or.inl ⟨a, hx⟩
  · refine ⟨by simp [geocodeResolution, hS, hR], ?_⟩
    intro x hx
    simp only [geocodeResolution, hS, hR, List.mem_append, List.mem_singleton] at hx
    rcases hx with rfl | rfl
    · exact Or.inl ⟨a, rfl⟩
    · exact Or.inr ⟨c, rfl⟩

/-- The substring test succeeds on an anchored occurrence. -/
theorem listContainsSeq_here (needle post : List Char) :
    listContainsSeq (needle ++ post) needle = true := by
  cases h : needle ++ post with
  | nil =>
    obtain ⟨h1, h2⟩ := List.append_eq_nil.mp h
    subst h1
    subst h2
    rfl
  | cons c rest =>
    have hpre : needle.isPrefixOf (needle ++ post) = true :=
      List.isPrefixOf_iff_prefix.mpr (List.prefix_append needle post)
    rw [h] at hpre
    simp [listContainsSeq, hpre]

/-- The substring test is stable under extending the haystack on the left. -/
theorem listContainsSeq_shift (hd : Char) (tl needle : List Char)
    (h : listContainsSeq tl needle = true) :
    listContainsSeq (hd :: tl) needle = true := by
  simp only [listContainsSeq]
  rw [h]
  simp

/-- The substring test succeeds on any exhibited occurrence. -/
theorem listContainsSeq_intro (pre needle post : List Char) :
    listContainsSeq (pre ++ (needle ++ post)) needle = true := by
  induction pre with
  | nil => exact listContainsSeq_here needle post
  | cons hd tl ih => exact listContainsSeq_shift hd _ needle ih

/-- String-level form of `listContainsSeq_intro`. -/
theorem strContainsSeq_intro (pre needle post hay : String)
    (h : hay.data = pre.data ++ (needle.data ++ post.data)) :
    strContainsSeq hay needle = true := by
  unfold strContainsSeq
  rw [h]
  exact listContainsSeq_intro _ _ _

/-! ## Claim theorems -/

/-- C2: the claim states that the building-data fetch, scanning the
`elements` array, selects only the element whose id equals the requested id
and whose type is expected, and never matches an element with a different
id.  The code violates this: because `and` binds tighter than `or` in the
match condition, any dict element of type `"way"` matches regardless of its
id.  Here the fetch for id 111 scans a payload whose only element is a way
with id 999, and returns that element. -/
theorem C2_extract_building_matches_wrong_id :
    _extract_building
        (.obj [("elements", .arr [.obj [("type", JValue.str "way"), ("id", JValue.int 999)]])])
        111 =
      .ok [("type", JValue.str "way"), ("id", JValue.int 999)] ∧
    (999 : Int) ≠ 111 := by
  exact ⟨rfl, by decide⟩

/-- C1: the claim states that with no LLM provider configured and a profile
still missing `year_built`/`architect`/`history`, enrichment is silently
skipped, the pre-enrichment profile is returned unchanged and no error is
surfaced.  The code instead crashes: `_enrich_building_info_by_lmm` returns
`None`, the caller's `updated_building != building` comparison treats that
as a change, the profile variable becomes `None` and `"LLM Generated"` is
appended, and `BuildingInfoResponse(building=None)` raises a validation
error that surfaces as a 500.  Evaluated here on the environment of the
repository's own router test (reverse geocode resolves osm id 777,
building data returns a name-only profile, no facade configured), for
which the test expects a 200 response. -/
theorem C1_no_llm_provider_yields_500 :
    (building_info
      { geocode := fun _ => .notFound
        reverse := fun _ => .found ⟨⟨mkRat 59935 1000, mkRat 30325 1000⟩, ⟨777⟩⟩
        fetch := fun _ => .ok (some { name := some "Test Building" })
        llm := none
        timestamp := "20250101120000000000" }
      { coordinates := some ⟨mkRat 59935 1000, mkRat 30325 1000⟩ }).1 =
    .error ⟨500, "Internal Server Error"⟩ := by
  rfl

/-- C6 counterexample: the claim states that an element absent from a
successfully parsed response is a valid non-error outcome and that fetch
returns an empty/None result for it.  The code instead raises
`OpenStreetMapServiceError` from `_extract_building`: fetching id 111
against a well-formed payload with an empty `elements` array errors, and
in particular does not return the `None` result the claim requires. -/
theorem C6_counterexample_not_found_raises :
    BuildingDataService.fetch 111 (.body (.obj [("elements", .arr [])])) = .error .notFound ∧
    BuildingDataService.fetch 111 (.body (.obj [("elements", .arr [])])) ≠ .ok none := by
  refine ⟨rfl, fun h => ?_⟩
  rw [show BuildingDataService.fetch 111 (.body (.obj [("elements", .arr [])])) =
      .error .notFound from rfl] at h
  exact Except.noConfusion h

/-- C6 amended: "not found" is not a non-error outcome of the fetch: an
element absent from a successfully parsed payload raises an
`OpenStreetMapServiceError` exactly like transport failures, non-2xx
responses and malformed payload structure; fetch returns a `None` result
only when invoked without a (nonzero) building id. -/
theorem C6_amended_fetch_error_taxonomy :
    (∀ r : UpstreamResp, BuildingDataService.fetch 0 r = .ok none) ∧
    (∀ id : Int, id ≠ 0 →
      BuildingDataService.fetch id .transportErr = .error .transport ∧
      (∀ s, BuildingDataService.fetch id (.badStatus s) = .error (.rejected (some s))) ∧
      BuildingDataService.fetch id .invalidJson = .error .invalidJson ∧
      (∀ xs, BuildingDataService.fetch id (.body (.arr xs)) = .error .unexpectedPayload) ∧
      (∀ kvs, jlookup kvs "elements" = none →
        BuildingDataService.fetch id (.body (.obj kvs)) = .error .unexpectedPayload) ∧
      (∀ kvs elems, jlookup kvs "elements" = some (.arr elems) →
        extractLoop id elems = .error .notFound →
        BuildingDataService.fetch id (.body (.obj kvs)) = .error .notFound)) := by
  refine ⟨fun r => rfl, fun id h => ⟨?_, ?_, ?_, ?_, ?_, ?_⟩⟩
  · simp [BuildingDataService.fetch, h]
  · intro s; simp [BuildingDataService.fetch, h]
  · simp [BuildingDataService.fetch, h]
  · intro xs; simp [BuildingDataService.fetch, _extract_building, h]
  · intro kvs hk; simp [BuildingDataService.fetch, _extract_building, h, hk]
  · intro kvs elems hk hloop
    simp [BuildingDataService.fetch, _extract_building, h, hk, hloop]

/-- C6 amended, witness: the taxonomy evaluated at concrete inputs — a
zero id short-circuits to `None`, a transport failure on id 111 errors,
and id 111 absent from a parsed payload errors as "not found". -/
theorem C6_amended_witness :
    BuildingDataService.fetch 0 .transportErr = .ok none ∧
    BuildingDataService.fetch 111 .transportErr = .error .transport ∧
    BuildingDataService.fetch 111 (.body (.obj [("elements", .arr [])])) = .error .notFound := by
  obtain ⟨h0, hrest⟩ := C6_amended_fetch_error_taxonomy
  obtain ⟨ht, -, -, -, -, hnf⟩ := hrest 111 (by decide)
  exact ⟨h0 _, ht, hnf [("elements", .arr [])] [] rfl rfl⟩

/-- Helper: a successful head-anchored year match exposes its four
characters and their shape. -/
theorem yearMatchAt_spec {l : List Char} {y : Nat} (h : yearMatchAt l = some y) :
    ∃ a b c d post, l = a :: b :: c :: d :: post ∧
      ((a = '1' ∧ isAsciiDigit b ∧ isAsciiDigit c ∧ isAsciiDigit d) ∨
       (a = '2' ∧ b = '0' ∧ isAsciiDigit c ∧ isAsciiDigit d)) ∧
      y = digitsToNat [a, b, c, d] := by
  rcases l with - | ⟨a, - | ⟨b, - | ⟨c, - | ⟨d, post⟩⟩⟩⟩
  · exact Option.noConfusion h
  · exact Option.noConfusion h
  · exact Option.noConfusion h
  · exact Option.noConfusion h
  · refine ⟨a, b, c, d, post, rfl, ?_⟩
    simp only [yearMatchAt] at h
    by_cases h1 : a = '1' ∧ isAsciiDigit b ∧ isAsciiDigit c ∧ isAsciiDigit d
    · rw [if_pos h1] at h
      exact ⟨Or.inl h1, (Option.some_inj.mp h).symm⟩
    · rw [if_neg h1] at h
      by_cases h2 : a = '2' ∧ b = '0' ∧ isAsciiDigit c ∧ isAsciiDigit d
      · rw [if_pos h2] at h
        exact ⟨Or.inr h2, (Option.some_inj.mp h).symm⟩
      · rw [if_neg h2] at h
        exact Option.noConfusion h

/-- Helper: a successful scan of the year pattern decomposes the scanned
characters around a four-character match. -/
theorem yearSearch_spec {l : List Char} {y : Nat} (h : yearSearch l = some y) :
    ∃ pre a b c d post, l = pre ++ a :: b :: c :: d :: post ∧
      ((a = '1' ∧ isAsciiDigit b ∧ isAsciiDigit c ∧ isAsciiDigit d) ∨
       (a = '2' ∧ b = '0' ∧ isAsciiDigit c ∧ isAsciiDigit d)) ∧
      y = digitsToNat [a, b, c, d] := by
  induction l with
  | nil => exact Option.noConfusion h
  | cons hd tl ih =>
    simp only [yearSearch] at h
    cases hm : yearMatchAt (hd :: tl) with
    | some y' =>
      rw [hm] at h
      obtain ⟨a, b, c, d, post, heq, hsh, hy⟩ := yearMatchAt_spec hm
      exact ⟨[], a, b, c, d, post, by simpa using heq, hsh,
        by rw [← Option.some_inj.mp h]; exact hy⟩
    | none =>
      rw [hm] at h
      obtain ⟨pre, a, b, c, d, post, heq, hsh, hy⟩ := ih h
      exact ⟨hd :: pre, a, b, c, d, post, by simp [heq], hsh, hy⟩

/-- C9: year normalisation of the LLM response parser.  Integers and
floats are accepted as integers (floats truncated by `int()`); a string is
accepted only when, lowered and stripped, it contains a four-character
run matching `1[0-9]{3}` or `20[0-9]{2}`; a string that is blank after
trimming or contains an "unknown"/"неизвестно" sentinel normalises to
absent. -/
theorem C9_llm_year_normalization :
    (∀ n : Int, _normalize_year (.int n) = some n) ∧
    (∀ q : Rat, _normalize_year (.num q) = some (ratTrunc q)) ∧
    (∀ (s : String) (y : Int), _normalize_year (.str s) = some y →
      ∃ pre a b c d post,
        (pyLower (pyStrip s)).data = pre ++ a :: b :: c :: d :: post ∧
        ((a = '1' ∧ isAsciiDigit b ∧ isAsciiDigit c ∧ isAsciiDigit d) ∨
         (a = '2' ∧ b = '0' ∧ isAsciiDigit c ∧ isAsciiDigit d)) ∧
        y = Int.ofNat (digitsToNat [a, b, c, d])) ∧
    (∀ s : String,
      pyLower (pyStrip s) = "" ∨
      strContainsSeq (pyLower (pyStrip s)) "неизвестно" ∨
      strContainsSeq (pyLower (pyStrip s)) "unknown" →
      _normalize_year (.str s) = none) := by
  refine ⟨fun n => rfl, fun q => rfl, ?_, ?_⟩
  · intro s y h
    simp only [_normalize_year] at h
    by_cases hs : pyLower (pyStrip s) = "" ∨
        strContainsSeq (pyLower (pyStrip s)) "неизвестно" ∨
        strContainsSeq (pyLower (pyStrip s)) "unknown"
    · rw [if_pos hs] at h
      exact Option.noConfusion h
    · rw [if_neg hs] at h
      cases hy : yearSearch (pyLower (pyStrip s)).data with
      | some y' =>
        rw [hy] at h
        obtain ⟨pre, a, b, c, d, post, heq, hsh, hval⟩ := yearSearch_spec hy
        exact ⟨pre, a, b, c, d, post, heq, hsh,
          by rw [← Option.some_inj.mp h, hval]⟩
      | none =>
        rw [hy] at h
        exact Option.noConfusion h
  · intro s hs
    simp only [_normalize_year]
    rw [if_pos hs]

/-- C9 witness: the normalisation applied at concrete inputs — the integer
1987 passes through, the Russian phrase "построено в 1939 году" yields
1939, and the sentinel "Unknown" normalises to absent. -/
theorem C9_witness :
    _normalize_year (.int 1987) = some 1987 ∧
    _normalize_year (.str "построено в 1939 году") = some 1939 ∧
    _normalize_year (.str "Unknown") = none := by
  obtain ⟨h1, -, -, h4⟩ := C9_llm_year_normalization
  exact ⟨h1 1987, by decide, h4 "Unknown" (by decide)⟩

/-- C10: when a reverse-geocode payload identifies a building (a way with
an `osm_id`) but omits the `lat`/`lon` keys, `payload.get` falls back to
the queried coordinates, and the returned result carries exactly the
caller's input coordinates. -/
theorem C10_reverse_geocode_missing_latlon_falls_back
    (c : Coordinates) (kvs : List (String × JValue)) (v : JValue) (i : Int)
    (hid : jlookup kvs "osm_id" = some v) (hnn : v ≠ JValue.null)
    (htype : isStrVal (jlookup kvs "osm_type") "way" ∨ isStrVal (jlookup kvs "osm_type") "W")
    (hint : pyInt v = some i)
    (hlat : jlookup kvs "lat" = none) (hlon : jlookup kvs "lon" = none) :
    GeocodingService.reverse_geocode c (.body (.obj kvs)) = .ok (some ⟨c, ⟨i⟩⟩) := by
  have hraw : (match jlookup kvs "osm_id" with
      | some .null => none
      | v => v) = some v := by
    rw [hid]
    cases v
    · exact absurd rfl hnn
    all_goals rfl
  have htype' : (isStrVal (jlookup kvs "osm_type") "way" ∨
      isStrVal (jlookup kvs "osm_type") "W") := htype
  simp only [GeocodingService.reverse_geocode, hraw, hlat, hlon, Option.getD]
  rw [if_neg]
  · simp only [Option.bind, hint, pyFloat]
  · simp [htype']

/-- C10 witness: a way payload with `osm_id` 777 and no `lat`/`lon` keys,
queried at (59.9, 30.3), resolves to exactly (59.9, 30.3). -/
theorem C10_witness :
    GeocodingService.reverse_geocode ⟨mkRat 599 10, mkRat 303 10⟩
      (.body (.obj [("osm_id", .int 777), ("osm_type", .str "way")])) =
    .ok (some ⟨⟨mkRat 599 10, mkRat 303 10⟩, ⟨777⟩⟩) := by
  exact C10_reverse_geocode_missing_latlon_falls_back
    ⟨mkRat 599 10, mkRat 303 10⟩ [("osm_id", .int 777), ("osm_type", .str "way")]
    (.int 777) 777 rfl (fun h => JValue.noConfusion h) (Or.inl rfl) rfl rfl rfl

/-- C3: merge never overwrites a location.  Whenever the building-data
fetch returns a profile that already includes a location, any successful
final response carries exactly that location — not the geocode-resolved
coordinates — because the backfill runs only on a location-less profile
and no later stage writes `location`.  (The geocode-resolved coordinates
are written only when the fetched profile's location is absent, which is
the `if not building.location` branch embedded in `restOfPipeline`.) -/
theorem C3_location_never_overwritten (env : Env) (p : BuildingInfoRequest)
    (b : BuildingInfo) (l : Coordinates) (resp : BuildingInfoResponse)
    (hf : ∀ id, env.fetch id = .ok (some b)) (hl : b.location = some l)
    (h : (building_info env p).1 = .ok resp) :
    resp.building.location = some l := by
  obtain ⟨di, gr, gs, -, -, hrest, -⟩ := building_info_ok_inv env p resp h
  exact restOfPipeline_location env p.address di gr gs b l resp (hf _) hl hrest

/-- C3 witness: the fetched profile carries location (9, 9) while the
reverse geocoder resolves (1, 2); the response keeps (9, 9). -/
theorem C3_witness :
    (building_info
      { geocode := fun _ => .notFound
        reverse := fun _ => .found ⟨⟨mkRat 1 1, mkRat 2 1⟩, ⟨5⟩⟩
        fetch := fun _ => .ok (some ⟨some "X", some 1900, some "A", some ⟨mkRat 9 1, mkRat 9 1⟩, some "H", none⟩)
        llm := none
        timestamp := "t" }
      { coordinates := some ⟨mkRat 1 1, mkRat 2 1⟩ }).1 =
      .ok ⟨⟨some "X", some 1900, some "A", some ⟨mkRat 9 1, mkRat 9 1⟩, some "H", none⟩,
           ["OpenStreetMap Nominatim (reverse)", "OpenStreetMap API"]⟩ ∧
    (⟨⟨some "X", some 1900, some "A", some ⟨mkRat 9 1, mkRat 9 1⟩, some "H", none⟩,
      ["OpenStreetMap Nominatim (reverse)", "OpenStreetMap API"]⟩ :
        BuildingInfoResponse).building.location = some ⟨mkRat 9 1, mkRat 9 1⟩ := by
  have hok :
      (building_info
        { geocode := fun _ => .notFound
          reverse := fun _ => .found ⟨⟨mkRat 1 1, mkRat 2 1⟩, ⟨5⟩⟩
          fetch := fun _ => .ok (some ⟨some "X", some 1900, some "A", some ⟨mkRat 9 1, mkRat 9 1⟩, some "H", none⟩)
          llm := none
          timestamp := "t" }
        { coordinates := some ⟨mkRat 1 1, mkRat 2 1⟩ }).1 =
      .ok ⟨⟨some "X", some 1900, some "A", some ⟨mkRat 9 1, mkRat 9 1⟩, some "H", none⟩,
           ["OpenStreetMap Nominatim (reverse)", "OpenStreetMap API"]⟩ := by rfl
  exact ⟨hok, C3_location_never_overwritten _ _
    ⟨some "X", some 1900, some "A", some ⟨mkRat 9 1, mkRat 9 1⟩, some "H", none⟩
    ⟨mkRat 9 1, mkRat 9 1⟩ _ (fun _ => rfl) rfl hok⟩

/-- C4: address search takes precedence.  For a request supplying both a
non-empty address and coordinates, when forward geocoding succeeds the
reverse lookup is never invoked and any successful response's provenance
list starts with the search label and never contains the reverse label. -/
theorem C4_search_precedence (env : Env) (p : BuildingInfoRequest) (a : String)
    (c : Coordinates) (r : CoordinatesAndBuildingId)
    (ha : p.address = some a) (hne : a ≠ "") (_hc : p.coordinates = some c)
    (hg : env.geocode a = .found r) :
    (∀ co, Call.reverseLookup co ∉ (building_info env p).2) ∧
    (∀ resp, (building_info env p).1 = .ok resp →
      resp.source.head? = some "OpenStreetMap Nominatim (search)" ∧
      "OpenStreetMap Nominatim (reverse)" ∉ resp.source) := by
  have hgr := geocodeResolution_search_found env p a r ha hne hg
  have hcond : ¬(¬ optStrTruthy p.address = true ∧ p.coordinates = none) :=
    fun hx => hx.1 (by simp [ha, optStrTruthy, hne])
  constructor
  · intro co hmem
    cases hd : decodeImageStep p.image_base64 with
    | error e =>
      have hbi : building_info env p =
          (.error ⟨400, "OpenStreetMap gateway cannot decode the provided base64 photo"⟩, []) := by
        simp only [building_info]
        rw [if_neg hcond, hd]
      rw [hbi] at hmem
      exact absurd hmem (List.not_mem_nil _)
    | ok di =>
      have hbi : building_info env p =
          ((restOfPipeline env p.address di r "OpenStreetMap Nominatim (search)").1,
           [Call.geocodeSearch a] ++
             (restOfPipeline env p.address di r "OpenStreetMap Nominatim (search)").2) := by
        simp only [building_info]
        rw [if_neg hcond, hd, hgr]
      rw [hbi] at hmem
      rcases List.mem_append.mp hmem with hm | hm
      · rw [List.mem_singleton] at hm
        exact Call.noConfusion hm
      · rcases restOfPipeline_calls _ _ _ _ _ _ hm with hx | ⟨b', e', f', hx⟩ | ⟨a', q', hx⟩ <;>
          exact Call.noConfusion hx
  · intro resp hok
    obtain ⟨di, gr, gs, -, heqg, hrest, -⟩ := building_info_ok_inv env p resp hok
    have hpair : (Except.ok (gr, gs) : Except HttpError (CoordinatesAndBuildingId × String)) =
        .ok (r, "OpenStreetMap Nominatim (search)") := by
      rw [← heqg, hgr]
    obtain ⟨-, hgs⟩ := Prod.mk.injEq .. ▸ Except.ok.inj hpair
    subst hgs
    obtain ⟨extra, hsrc, hextra⟩ := restOfPipeline_ok_sources _ _ _ _ _ _ hrest
    rw [hsrc]
    refine ⟨rfl, ?_⟩
    intro hmem
    rcases List.mem_cons.mp hmem with hx | hx
    · exact absurd hx (by decide)
    · rcases hextra _ hx with hx' | hx' <;> simp at hx'

/-- C4 witness: both an address and different coordinates supplied, the
search path resolving; no reverse call appears in the trace and the
response provenance starts with the search label. -/
theorem C4_witness :
    Call.reverseLookup ⟨mkRat 3 1, mkRat 4 1⟩ ∉
      (building_info
        { geocode := fun _ => .found ⟨⟨mkRat 1 1, mkRat 2 1⟩, ⟨42⟩⟩
          reverse := fun _ => .found ⟨⟨mkRat 3 1, mkRat 4 1⟩, ⟨43⟩⟩
          fetch := fun _ => .ok (some ⟨some "X", some 1900, some "A", some ⟨mkRat 1 1, mkRat 2 1⟩, some "H", none⟩)
          llm := none
          timestamp := "t" }
        { address := some "Main Street 1", coordinates := some ⟨mkRat 3 1, mkRat 4 1⟩ }).2 ∧
    ((⟨⟨some "X", some 1900, some "A", some ⟨mkRat 1 1, mkRat 2 1⟩, some "H", none⟩,
       ["OpenStreetMap Nominatim (search)", "OpenStreetMap API"]⟩ :
         BuildingInfoResponse).source.head? = some "OpenStreetMap Nominatim (search)" ∧
     "OpenStreetMap Nominatim (reverse)" ∉
       (⟨⟨some "X", some 1900, some "A", some ⟨mkRat 1 1, mkRat 2 1⟩, some "H", none⟩,
         ["OpenStreetMap Nominatim (search)", "OpenStreetMap API"]⟩ :
           BuildingInfoResponse).source) := by
  have hC4 := C4_search_precedence
    { geocode := fun _ => .found ⟨⟨mkRat 1 1, mkRat 2 1⟩, ⟨42⟩⟩
      reverse := fun _ => .found ⟨⟨mkRat 3 1, mkRat 4 1⟩, ⟨43⟩⟩
      fetch := fun _ => .ok (some ⟨some "X", some 1900, some "A", some ⟨mkRat 1 1, mkRat 2 1⟩, some "H", none⟩)
      llm := none
      timestamp := "t" }
    { address := some "Main Street 1", coordinates := some ⟨mkRat 3 1, mkRat 4 1⟩ }
    "Main Street 1" ⟨mkRat 3 1, mkRat 4 1⟩ ⟨⟨mkRat 1 1, mkRat 2 1⟩, ⟨42⟩⟩
    rfl (by decide) rfl rfl
  exact ⟨hC4.1 ⟨mkRat 3 1, mkRat 4 1⟩, hC4.2 _ (by rfl)⟩

/-- C5: image round trip.  For a request with a decodable base64 image and
a location resolved by the reverse geocoder, any successful run stores a
file whose bytes are exactly the decoded payload, and the response
profile's `image_path` references that file's path, whose filename
contains the resolved osm id (`osm-<id>`) and the coordinate-derived
`<lat:.3f>-<lon:.3f>` fragment. -/
theorem C5_image_roundtrip (env : Env) (p : BuildingInfoRequest) (s : String)
    (bytes : List Nat) (ext : String) (c : Coordinates) (r : CoordinatesAndBuildingId)
    (resp : BuildingInfoResponse)
    (himg : p.image_base64 = some s) (hne : s ≠ "")
    (hdec : _decode_image s = some (bytes, ext))
    (ha : p.address = none) (hc : p.coordinates = some c) (hr : env.reverse c = .found r)
    (h : (building_info env p).1 = .ok resp) :
    Call.storeImage bytes ext
        (persistFilename env.timestamp ext (some r.building_id.osm_id) (some r.coordinates)) ∈
      (building_info env p).2 ∧
    resp.building.image_path =
      some ("/uploads/" ++
        persistFilename env.timestamp ext (some r.building_id.osm_id) (some r.coordinates)) ∧
    strContainsSeq
      (persistFilename env.timestamp ext (some r.building_id.osm_id) (some r.coordinates))
      ("osm-" ++ toString r.building_id.osm_id) = true ∧
    strContainsSeq
      (persistFilename env.timestamp ext (some r.building_id.osm_id) (some r.coordinates))
      (fmt3 r.coordinates.lat ++ "-" ++ fmt3 r.coordinates.lon) = true := by
  obtain ⟨di, gr, gs, hdi, heqg, hrest, htr⟩ := building_info_ok_inv env p resp h
  have hdi2 : decodeImageStep p.image_base64 = .ok (some (bytes, ext)) := by
    simp [decodeImageStep, himg, hne, hdec]
  have hdi' : di = some (bytes, ext) := Except.ok.inj (hdi.symm.trans hdi2)
  subst hdi'
  have hgr := geocodeResolution_reverse_found env p c r ha hc hr
  have hpair : (Except.ok (gr, gs) : Except HttpError (CoordinatesAndBuildingId × String)) =
      .ok (r, "OpenStreetMap Nominatim (reverse)") := by
    rw [← heqg, hgr]
  have hgr' : gr = r := congrArg Prod.fst (Except.ok.inj hpair)
  subst hgr'
  obtain ⟨hpath, hmem⟩ := restOfPipeline_image env p.address bytes ext gr gs resp hrest
  have hfn : persistFilename env.timestamp ext (some gr.building_id.osm_id) (some gr.coordinates) =
      "osm-" ++ toString gr.building_id.osm_id ++ "_" ++
        (fmt3 gr.coordinates.lat ++ "-" ++ fmt3 gr.coordinates.lon) ++ "_" ++
        env.timestamp ++ "." ++ ext := rfl
  refine ⟨?_, hpath, ?_, ?_⟩
  · rw [htr]
    exact List.mem_append_right _ hmem
  · refine strContainsSeq_intro "" ("osm-" ++ toString gr.building_id.osm_id)
      ("_" ++ (fmt3 gr.coordinates.lat ++ "-" ++ fmt3 gr.coordinates.lon) ++ "_" ++
        env.timestamp ++ "." ++ ext) _ ?_
    rw [hfn]
    show ("osm-" ++ toString gr.building_id.osm_id ++ "_" ++
      (fmt3 gr.coordinates.lat ++ "-" ++ fmt3 gr.coordinates.lon) ++ "_" ++
      env.timestamp ++ "." ++ ext).data = _
    simp [List.append_assoc]
  · refine strContainsSeq_intro ("osm-" ++ toString gr.building_id.osm_id ++ "_")
      (fmt3 gr.coordinates.lat ++ "-" ++ fmt3 gr.coordinates.lon)
      ("_" ++ env.timestamp ++ "." ++ ext) _ ?_
    rw [hfn]
    simp [List.append_assoc]

/-- C5 witness: the base64 encoding of `b"sample-image"` with
reverse-resolved coordinates (59.935, 30.325) and osm id 777; the stored
bytes are the decoded payload and the filename is
`osm-777_59.935-30.325_20240101.jpg`. -/
theorem C5_witness :
    Call.storeImage [115, 97, 109, 112, 108, 101, 45, 105, 109, 97, 103, 101] "jpg"
        (persistFilename "20240101" "jpg" (some 777) (some ⟨mkRat 59935 1000, mkRat 30325 1000⟩)) ∈
      (building_info
        { geocode := fun _ => .notFound
          reverse := fun _ => .found ⟨⟨mkRat 59935 1000, mkRat 30325 1000⟩, ⟨777⟩⟩
          fetch := fun _ => .ok (some ⟨some "X", some 1900, some "A", none, some "H", none⟩)
          llm := none
          timestamp := "20240101" }
        { address := none
          coordinates := some ⟨mkRat 59935 1000, mkRat 30325 1000⟩
          image_base64 := some "c2FtcGxlLWltYWdl" }).2 ∧
    persistFilename "20240101" "jpg" (some 777) (some ⟨mkRat 59935 1000, mkRat 30325 1000⟩) =
      "osm-777_59.935-30.325_20240101.jpg" := by
  have hC5 := C5_image_roundtrip
    { geocode := fun _ => .notFound
      reverse := fun _ => .found ⟨⟨mkRat 59935 1000, mkRat 30325 1000⟩, ⟨777⟩⟩
      fetch := fun _ => .ok (some ⟨some "X", some 1900, some "A", none, some "H", none⟩)
      llm := none
      timestamp := "20240101" }
    { address := none
      coordinates := some ⟨mkRat 59935 1000, mkRat 30325 1000⟩
      image_base64 := some "c2FtcGxlLWltYWdl" }
    "c2FtcGxlLWltYWdl" [115, 97, 109, 112, 108, 101, 45, 105, 109, 97, 103, 101] "jpg"
    ⟨mkRat 59935 1000, mkRat 30325 1000⟩ ⟨⟨mkRat 59935 1000, mkRat 30325 1000⟩, ⟨777⟩⟩
    ⟨⟨some "X", some 1900, some "A", some ⟨mkRat 59935 1000, mkRat 30325 1000⟩, some "H",
       some "/uploads/osm-777_59.935-30.325_20240101.jpg"⟩,
     ["OpenStreetMap Nominatim (reverse)", "OpenStreetMap API"]⟩
    rfl (by decide) (by rfl) rfl rfl rfl (by rfl)
  exact ⟨hC5.1, by rfl⟩

/-- C7: when the search path (for the given address, if any) and the
reverse path (for the given coordinates, if any) both yield nothing, the
endpoint fails with the 404 whose detail mentions "could not resolve",
and no building-data fetch, image persistence or LLM call is performed —
the trace holds only geocoding calls. -/
theorem C7_unresolvable_location_404 (env : Env) (p : BuildingInfoRequest)
    (di : Option (List Nat × String))
    (hv : optStrTruthy p.address = true ∨ p.coordinates ≠ none)
    (hdi : decodeImageStep p.image_base64 = .ok di)
    (hs : ∀ a, p.address = some a → a ≠ "" → env.geocode a = .notFound)
    (hr : ∀ c, p.coordinates = some c → env.reverse c = .notFound) :
    (building_info env p).1 =
      .error ⟨404, "OpenStreetMap Nominatim could not resolve the provided location"⟩ ∧
    strContainsSeq "OpenStreetMap Nominatim could not resolve the provided location"
      "could not resolve" = true ∧
    ∀ c ∈ (building_info env p).2,
      (∃ a, c = Call.geocodeSearch a) ∨ (∃ co, c = Call.reverseLookup co) := by
  obtain ⟨hg1, hg2⟩ := geocodeResolution_both_not_found env p hs hr
  have hcond : ¬(¬ optStrTruthy p.address = true ∧ p.coordinates = none) := by
    rcases hv with h | h
    · exact fun hx => hx.1 h
    · exact fun hx => h hx.2
  have hbi : building_info env p =
      (.error ⟨404, "OpenStreetMap Nominatim could not resolve the provided location"⟩,
       (geocodeResolution env p).2) := by
    simp only [building_info]
    rw [if_neg hcond, hdi, hg1]
  rw [hbi]
  exact ⟨rfl, by decide, hg2⟩

/-- C7 witness: request `{address: "Unknown Street"}` against a geocoder
that resolves nothing; the result is the 404 and the trace holds only the
one search call. -/
theorem C7_witness :
    (building_info
      { geocode := fun _ => .notFound
        reverse := fun _ => .notFound
        fetch := fun _ => .ok none
        llm := none
        timestamp := "t" }
      { address := some "Unknown Street" }).1 =
      .error ⟨404, "OpenStreetMap Nominatim could not resolve the provided location"⟩ ∧
    strContainsSeq "OpenStreetMap Nominatim could not resolve the provided location"
      "could not resolve" = true ∧
    (building_info
      { geocode := fun _ => .notFound
        reverse := fun _ => .notFound
        fetch := fun _ => .ok none
        llm := none
        timestamp := "t" }
      { address := some "Unknown Street" }).2 = [Call.geocodeSearch "Unknown Street"] := by
  have hC7 := C7_unresolvable_location_404
    { geocode := fun _ => .notFound
      reverse := fun _ => .notFound
      fetch := fun _ => .ok none
      llm := none
      timestamp := "t" }
    { address := some "Unknown Street" }
    none (Or.inl (by decide)) rfl (fun _ _ _ => rfl) (fun c hc => Option.noConfusion hc)
  exact ⟨hC7.1, hC7.2.1, by rfl⟩

/-- C8: a request whose image payload does not strictly decode fails with
the 400 whose detail mentions "cannot decode", with an empty call trace —
before any geocoding or other network call; and decoding is a pure
function, so decoding the same payload twice yields identical output. -/
theorem C8_invalid_base64_fails_first (env : Env) (p : BuildingInfoRequest) (s : String)
    (himg : p.image_base64 = some s) (hne : s ≠ "") (hdec : _decode_image s = none)
    (hv : optStrTruthy p.address = true ∨ p.coordinates ≠ none) :
    building_info env p =
      (.error ⟨400, "OpenStreetMap gateway cannot decode the provided base64 photo"⟩, []) ∧
    strContainsSeq "OpenStreetMap gateway cannot decode the provided base64 photo"
      "cannot decode" = true ∧
    (∀ t : String, _decode_image t = _decode_image t) := by
  have hcond : ¬(¬ optStrTruthy p.address = true ∧ p.coordinates = none) := by
    rcases hv with h | h
    · exact fun hx => hx.1 h
    · exact fun hx => h hx.2
  have hd : decodeImageStep p.image_base64 = .error () := by
    simp [decodeImageStep, himg, hne, hdec]
  refine ⟨?_, by decide, fun t => rfl⟩
  simp only [building_info]
  rw [if_neg hcond, hd]

/-- C8 witness: the payload `"@@@invalid@@@"` with valid coordinates fails
with the 400 and an empty trace. -/
theorem C8_witness :
    building_info
      { geocode := fun _ => .notFound
        reverse := fun _ => .notFound
        fetch := fun _ => .ok none
        llm := none
        timestamp := "t" }
      { coordinates := some ⟨mkRat 59935 1000, mkRat 30325 1000⟩
        image_base64 := some "@@@invalid@@@" } =
      (.error ⟨400, "OpenStreetMap gateway cannot decode the provided base64 photo"⟩, []) ∧
    strContainsSeq "OpenStreetMap gateway cannot decode the provided base64 photo"
      "cannot decode" = true ∧
    _decode_image "@@@invalid@@@" = _decode_image "@@@invalid@@@" := by
  have hC8 := C8_invalid_base64_fails_first
    { geocode := fun _ => .notFound
      reverse := fun _ => .notFound
      fetch := fun _ => .ok none
      llm := none
      timestamp := "t" }
    { coordinates := some ⟨mkRat 59935 1000, mkRat 30325 1000⟩
      image_base64 := some "@@@invalid@@@" }
    "@@@invalid@@@" rfl (by decide) (by rfl)
    (Or.inr (by simp))
  exact ⟨hC8.1, hC8.2.1, hC8.2.2 "@@@invalid@@@"⟩

end CitySnap
